import Mathlib

/-!
Shallow embedding of the CampusCore student-records application
(`src/students/models.py`, `src/students/forms.py`, `src/students/views.py`).

The database is modelled as lists of records; the framework's object mapper
(uniqueness validation, cascading delete, pagination) is embedded with its
documented semantics at the call sites the views use.  Each Django view
function becomes a Lean function from an authentication flag, the request
method/parameters and a database to a response paired with the new database.
-/

namespace CampusCore

/-- Course model (`models.py` lines 5-19): surrogate id, name, unique code, credits. -/
structure Course where
  id : Nat
  name : String
  code : String
  credits : Int
deriving Repr, DecidableEq

/-- Student model (`models.py` lines 22-65): surrogate id, unique business
`student_id` and unique email, names, academic year (choices '1'-'4'),
many-to-many course enrollment, and a creation timestamp (`created_at`,
set once on creation by the framework). -/
structure Student where
  id : Nat
  student_id : String
  first_name : String
  last_name : String
  email : String
  year : String
  courses : List Nat
  created_at : Nat
deriving Repr, DecidableEq

/-- Grade model (`models.py` lines 68-95): join record referencing one student
and one course, a letter grade and integer marks, with
`unique_together = ['student', 'course']`. -/
structure Grade where
  id : Nat
  student : Nat
  course : Nat
  grade : String
  marks : Int
deriving Repr, DecidableEq

/-- Database state: the three tables plus a monotone clock supplying
`created_at` values (the framework sets `auto_now_add` timestamps). -/
structure DB where
  students : List Student
  courses : List Course
  grades : List Grade
  clock : Nat
deriving Repr, DecidableEq

/-- Academic year choices (`Student.YEAR_CHOICES`, `models.py` lines 30-35). -/
def yearChoices : List String := ["1", "2", "3", "4"]

/-- Letter grade choices (`Grade.GRADE_CHOICES`, `models.py` lines 78-84). -/
def gradeChoices : List String := ["A", "B", "C", "D", "F"]

/-- Backend integer range enforced by the object mapper on `IntegerField`
model fields (the storage backend's 32-bit signed range; not a 0-100 bound). -/
def intFieldOk (n : Int) : Bool := -2147483648 ≤ n && n ≤ 2147483647

/-- Simplified model of the framework's email-format validator (an external
collaborator per the spec §4.2): one '@' separating non-empty local and
domain parts.  No claim below depends on its details. -/
def emailFormatOk (e : String) : Bool :=
  match e.data.splitOn '@' with
  | [l, d] => !l.isEmpty && !d.isEmpty
  | _ => false

/-- Lower-cased character list of a string, for case-insensitive matching. -/
def lcChars (s : String) : List Char := s.data.map Char.toLower

/-- Whether the first list is an initial segment of the second. -/
def leadMatch : List Char → List Char → Bool
  | [], _ => true
  | _ :: _, [] => false
  | p :: ps, c :: cs => p == c && leadMatch ps cs

/-- Whether the first list occurs as a contiguous segment of the second. -/
def subMatch (pat : List Char) : List Char → Bool
  | [] => pat.isEmpty
  | c :: rest => leadMatch pat (c :: rest) || subMatch pat rest

/-- Case-insensitive substring test: the object mapper's `icontains` lookup
(`views.py` lines 89-95). -/
def icontains (field pat : String) : Bool :=
  subMatch (lcChars pat) (lcChars field)

/-- Raw input to the student form (`StudentForm`, `forms.py` lines 7-24):
fields `student_id`, `first_name`, `last_name`, `email`, `year`, `courses`. -/
structure StudentInput where
  student_id : String
  first_name : String
  last_name : String
  email : String
  year : String
  courses : List Nat
deriving Repr, DecidableEq

/-- Raw input to the grade form (`GradeForm`, `forms.py` lines 44-59):
fields `student`, `course`, `grade`, `marks`. -/
structure GradeInput where
  student : Nat
  course : Nat
  grade : String
  marks : Int
deriving Repr, DecidableEq

/-- Raw input to the course form (`CourseForm`, `forms.py` lines 27-41). -/
structure CourseInput where
  name : String
  code : String
  credits : Int
deriving Repr, DecidableEq

/-- Registration form input (`UserRegisterForm`, `forms.py` lines 62-79):
username, email and two password fields. -/
structure RegisterInput where
  username : String
  email : String
  password1 : String
  password2 : String
deriving Repr, DecidableEq

/-- Field-level checks of `StudentForm` apart from uniqueness: required
non-empty values, `max_length` bounds from the model fields
(`models.py` lines 38-42), email format, year choice membership, and each
selected course pk existing (`ModelMultipleChoiceField`). -/
def studentFieldsOk (db : DB) (inp : StudentInput) : Bool :=
  !inp.student_id.isEmpty && inp.student_id.length ≤ 20 &&
  !inp.first_name.isEmpty && inp.first_name.length ≤ 50 &&
  !inp.last_name.isEmpty && inp.last_name.length ≤ 50 &&
  !inp.email.isEmpty && inp.email.length ≤ 254 && emailFormatOk inp.email &&
  yearChoices.contains inp.year &&
  inp.courses.all (fun c => db.courses.any (fun co => co.id == c))

/-- Uniqueness validation of `StudentForm` (the object mapper's
`validate_unique` for the `unique=True` fields `student_id` and `email`,
`models.py` lines 40-41).  When bound to an existing instance (update,
`views.py` line 134) the record being edited is excluded from the check. -/
def studentUniqueOk (db : DB) (exclude : Option Nat) (inp : StudentInput) : Bool :=
  !(db.students.any (fun s =>
      (match exclude with
       | none => true
       | some pk => !(s.id == pk)) &&
      (s.student_id == inp.student_id || s.email == inp.email)))

/-- Full validation of `StudentForm.is_valid()`. -/
def studentFormValid (db : DB) (exclude : Option Nat) (inp : StudentInput) : Bool :=
  studentFieldsOk db inp && studentUniqueOk db exclude inp

/-- Validation of `GradeForm.is_valid()`: the referenced student and course
must exist (`ModelChoiceField`), the letter grade must be one of the choices,
marks must be an integer in the backend field range (the form declares no
0-100 validator: the widget `min`/`max` attributes on `forms.py` line 58 are
client-side HTML attributes only), and the `unique_together` constraint on
`(student, course)` must not already be violated (`validate_unique`). -/
def gradeFormValid (db : DB) (inp : GradeInput) : Bool :=
  db.students.any (fun s => s.id == inp.student) &&
  db.courses.any (fun c => c.id == inp.course) &&
  gradeChoices.contains inp.grade &&
  intFieldOk inp.marks &&
  !(db.grades.any (fun g => g.student == inp.student && g.course == inp.course))

/-- Validation of `CourseForm.is_valid()`: required fields, `max_length`
bounds, backend integer range for credits, and unique `code`
(`models.py` line 11). -/
def courseFormValid (db : DB) (inp : CourseInput) : Bool :=
  !inp.name.isEmpty && inp.name.length ≤ 100 &&
  !inp.code.isEmpty && inp.code.length ≤ 10 &&
  intFieldOk inp.credits &&
  !(db.courses.any (fun c => c.code == inp.code))

/-- Validation of `UserRegisterForm.is_valid()`, modelled from the spec §4.2:
username and email present, email well-formed, and the two password entries
non-empty and matching (credential strength rules live in the external
identity subsystem and are abstracted to non-emptiness). -/
def registerFormValid (inp : RegisterInput) : Bool :=
  !inp.username.isEmpty && emailFormatOk inp.email &&
  !inp.password1.isEmpty && inp.password1 == inp.password2

/-- Fresh surrogate key for a new student row: the object mapper's autofield
guarantees a key distinct from every existing row; modelled as max id + 1. -/
def freshStudentId (db : DB) : Nat :=
  db.students.foldr (fun s m => max s.id m) 0 + 1

/-- Fresh surrogate key for a new grade row. -/
def freshGradeId (db : DB) : Nat :=
  db.grades.foldr (fun g m => max g.id m) 0 + 1

/-- Fresh surrogate key for a new course row. -/
def freshCourseId (db : DB) : Nat :=
  db.courses.foldr (fun c m => max c.id m) 0 + 1

/-- Persisting a validated student form (`form.save()`, `views.py` line 62):
a new row with a fresh key and `created_at` drawn from the clock. -/
def insertStudent (db : DB) (inp : StudentInput) : DB :=
  { db with
    students := db.students ++
      [{ id := freshStudentId db
         student_id := inp.student_id
         first_name := inp.first_name
         last_name := inp.last_name
         email := inp.email
         year := inp.year
         courses := inp.courses
         created_at := db.clock }]
    clock := db.clock + 1 }

/-- Persisting a validated grade form (`form.save()`, `views.py` line 211). -/
def insertGrade (db : DB) (inp : GradeInput) : DB :=
  { db with
    grades := db.grades ++
      [{ id := freshGradeId db
         student := inp.student
         course := inp.course
         grade := inp.grade
         marks := inp.marks }] }

/-- Persisting a validated course form (`form.save()`, `views.py` line 190). -/
def insertCourse (db : DB) (inp : CourseInput) : DB :=
  { db with
    courses := db.courses ++
      [{ id := freshCourseId db
         name := inp.name
         code := inp.code
         credits := inp.credits }] }

/-- Persisting a validated update bound to the instance with key `pk`
(`form.save()` with `instance=student`, `views.py` lines 134-136): the row
keeps its key and creation timestamp, the form fields are overwritten. -/
def updateStudent (db : DB) (pk : Nat) (inp : StudentInput) : DB :=
  { db with
    students := db.students.map (fun s =>
      if s.id == pk then
        { s with
          student_id := inp.student_id
          first_name := inp.first_name
          last_name := inp.last_name
          email := inp.email
          year := inp.year
          courses := inp.courses }
      else s) }

/-- Cascade deletion of a student (`student.delete()`, `views.py` line 161):
the `on_delete=CASCADE` option on `Grade.student` (`models.py` line 74)
deletes every grade referencing the student; courses are untouched. -/
def deleteStudentCascade (db : DB) (pk : Nat) : DB :=
  { db with
    students := db.students.filter (fun s => !(s.id == pk))
    grades := db.grades.filter (fun g => !(g.student == pk)) }

/-- Rendered page payloads: exactly the context each template receives
(`render(...)` calls in `views.py`). Form pages carry no entity data. -/
inductive PageData where
  | dashboardPage : Nat → Nat → Nat → List Student → PageData
  | studentListPage : Nat → Nat → List Student → PageData
  | studentDetailPage : Student → List Grade → PageData
  | studentConfirmDeletePage : Student → PageData
  | courseListPage : List Course → PageData
  | formPage : PageData
deriving Repr, DecidableEq

/-- Response of a view: the `login_required` redirect to the login entry
point, a rendered page, a redirect to a named route, or a 404. -/
inductive HResp where
  | redirectLogin : HResp
  | page : PageData → HResp
  | redirect : String → HResp
  | notFound : HResp
deriving Repr, DecidableEq

/-- Students ordered by `student_id` ascending
(`Student.objects.all().order_by('student_id')`, `views.py` line 83). -/
def orderByStudentIdField (l : List Student) : List Student :=
  l.insertionSort (fun a b => a.student_id ≤ b.student_id)

/-- Python `or` on two query results (`views.py` lines 89-95): a queryset is
truthy exactly when it is non-empty, so the left operand wins unless empty. -/
def pyOrList (a b : List Student) : List Student :=
  if a.isEmpty then b else a

/-- Search filtering of `student_list` (`views.py` lines 89-95): the three
case-insensitive filters are each applied to the same unfiltered list and
chained with Python `or`, so the first non-empty result wins. -/
def searchFilter (l : List Student) (q : String) : List Student :=
  pyOrList
    (pyOrList (l.filter (fun s => icontains s.first_name q))
              (l.filter (fun s => icontains s.last_name q)))
    (l.filter (fun s => icontains s.student_id q))

/-- The `search` request parameter applied as in `views.py` lines 86-95:
`request.GET.get('search')` is `none` when absent, and Python `if search:`
skips filtering for a missing or empty string. -/
def appliedSearch (l : List Student) (search : Option String) : List Student :=
  match search with
  | none => l
  | some q => if q.isEmpty then l else searchFilter l q

/-- The `page` query parameter after Python `int()` parsing: absent
(`request.GET.get` returned `None`) or non-numeric strings both raise
`PageNotAnInteger` inside the paginator; numeric strings give an integer. -/
inductive PageParam where
  | absent : PageParam
  | notAnInteger : PageParam
  | num : Int → PageParam
deriving Repr, DecidableEq

/-- Number of pages of the framework paginator with `allow_empty_first_page`
(its default): `ceil(max 1 count / perPage)`, so at least one page exists. -/
def numPages (count perPage : Nat) : Nat :=
  (max 1 count + perPage - 1) / perPage

/-- Resolved page number of `Paginator.get_page` (`views.py` line 100):
a missing or non-numeric parameter falls back to the first page, a numeric
parameter below 1 or beyond the last page falls back to the last page. -/
def resolvedPageNumber (count perPage : Nat) (param : PageParam) : Nat :=
  match param with
  | .absent => 1
  | .notAnInteger => 1
  | .num n =>
    if n < 1 then numPages count perPage
    else if n > (numPages count perPage : Int) then numPages count perPage
    else n.toNat

/-- One page of results: number, page count, and the records of the page. -/
structure PageResult where
  number : Nat
  pages : Nat
  objects : List Student
deriving Repr, DecidableEq

/-- The framework paginator as used by `student_list`
(`Paginator(student_list, 10)` then `get_page`, `views.py` lines 98-100). -/
def paginate (l : List Student) (perPage : Nat) (param : PageParam) : PageResult :=
  let p := resolvedPageNumber l.length perPage param
  { number := p
    pages := numPages l.length perPage
    objects := (l.drop ((p - 1) * perPage)).take perPage }

/-- Students ordered by `created_at` descending
(`Student.objects.order_by('-created_at')`, `views.py` line 44). -/
def orderByCreatedDesc (l : List Student) : List Student :=
  l.insertionSort (fun a b => b.created_at ≤ a.created_at)

/-- The `register` view (`views.py` lines 11-29): no `login_required`
decorator, so it is reachable without a session.  On a valid POST the
external identity subsystem creates the account and establishes a session
(both out of scope) and the view redirects to the student list; otherwise
the (blank or error-annotated) form page is rendered. -/
def register (isPost : Bool) (inp : RegisterInput) (db : DB) : HResp × DB :=
  if isPost then
    if registerFormValid inp then (.redirect "student_list", db)
    else (.page .formPage, db)
  else (.page .formPage, db)

/-- The `dashboard` view (`views.py` lines 33-46): guarded by
`login_required`; renders the three table counts and the five
most-recently-created students. -/
def dashboard (auth : Bool) (db : DB) : HResp × DB :=
  if !auth then (.redirectLogin, db)
  else
    (.page (.dashboardPage db.students.length db.courses.length db.grades.length
      ((orderByCreatedDesc db.students).take 5)), db)

/-- The `student_create` view (`views.py` lines 52-72): guarded by
`login_required`; a valid POST persists the new student and redirects to the
student list, an invalid POST re-renders the form with errors and persists
nothing, a GET renders the blank form. -/
def student_create (auth isPost : Bool) (inp : StudentInput) (db : DB) : HResp × DB :=
  if !auth then (.redirectLogin, db)
  else if isPost then
    if studentFormValid db none inp then
      (.redirect "student_list", insertStudent db inp)
    else (.page .formPage, db)
  else (.page .formPage, db)

/-- The `student_list` view (`views.py` lines 76-102): guarded by
`login_required`; orders by `student_id`, applies the search filter, and
paginates at 10 records per page. -/
def student_list (auth : Bool) (search : Option String) (param : PageParam)
    (db : DB) : HResp × DB :=
  if !auth then (.redirectLogin, db)
  else
    let r := paginate (appliedSearch (orderByStudentIdField db.students) search) 10 param
    (.page (.studentListPage r.number r.pages r.objects), db)

/-- The `student_detail` view (`views.py` lines 106-119): guarded by
`login_required`; `get_object_or_404` then the student's grades. -/
def student_detail (auth : Bool) (pk : Nat) (db : DB) : HResp × DB :=
  if !auth then (.redirectLogin, db)
  else
    match db.students.find? (fun s => s.id == pk) with
    | none => (.notFound, db)
    | some st =>
      (.page (.studentDetailPage st (db.grades.filter (fun g => g.student == pk))), db)

/-- The `student_update` view (`views.py` lines 123-147): guarded by
`login_required`; the form is bound to the existing instance, so uniqueness
validation excludes the record being edited. -/
def student_update (auth isPost : Bool) (pk : Nat) (inp : StudentInput)
    (db : DB) : HResp × DB :=
  if !auth then (.redirectLogin, db)
  else
    match db.students.find? (fun s => s.id == pk) with
    | none => (.notFound, db)
    | some _ =>
      if isPost then
        if studentFormValid db (some pk) inp then
          (.redirect "student_detail", updateStudent db pk inp)
        else (.page .formPage, db)
      else (.page .formPage, db)

/-- The `student_delete` view (`views.py` lines 151-166): guarded by
`login_required`; GET renders the confirmation page, POST deletes the
student and, via CASCADE, every grade referencing it. -/
def student_delete (auth isPost : Bool) (pk : Nat) (db : DB) : HResp × DB :=
  if !auth then (.redirectLogin, db)
  else
    match db.students.find? (fun s => s.id == pk) with
    | none => (.notFound, db)
    | some st =>
      if isPost then (.redirect "student_list", deleteStudentCascade db pk)
      else (.page (.studentConfirmDeletePage st), db)

/-- The `course_list` view (`views.py` lines 170-177): guarded by
`login_required`; unpaginated full list. -/
def course_list (auth : Bool) (db : DB) : HResp × DB :=
  if !auth then (.redirectLogin, db)
  else (.page (.courseListPage db.courses), db)

/-- The `course_create` view (`views.py` lines 180-197): guarded by
`login_required`. -/
def course_create (auth isPost : Bool) (inp : CourseInput) (db : DB) : HResp × DB :=
  if !auth then (.redirectLogin, db)
  else if isPost then
    if courseFormValid db inp then (.redirect "course_list", insertCourse db inp)
    else (.page .formPage, db)
  else (.page .formPage, db)

/-- The `grade_create` view (`views.py` lines 201-218): guarded by
`login_required`; a valid POST persists the grade and redirects to the
student list, an invalid POST (in particular a duplicate
`(student, course)` pair) re-renders the form and persists nothing. -/
def grade_create (auth isPost : Bool) (inp : GradeInput) (db : DB) : HResp × DB :=
  if !auth then (.redirectLogin, db)
  else if isPost then
    if gradeFormValid db inp then (.redirect "student_list", insertGrade db inp)
    else (.page .formPage, db)
  else (.page .formPage, db)

/-- The handlers exposed by `urls.py`: one per view function. -/
inductive Handler where
  | register | dashboard | student_create | student_list | student_detail
  | student_update | student_delete | course_list | course_create | grade_create
deriving Repr, DecidableEq

/-- A request carrying every parameter any handler consumes: session flag,
method, query parameters, a path pk, and the possible form bodies. -/
structure Request where
  auth : Bool
  isPost : Bool
  search : Option String
  pageParam : PageParam
  pk : Nat
  studentBody : StudentInput
  gradeBody : GradeInput
  courseBody : CourseInput
  registerBody : RegisterInput
deriving Repr, DecidableEq

/-- Routing a request to its view function (`urls.py`). -/
def dispatch (h : Handler) (req : Request) (db : DB) : HResp × DB :=
  match h with
  | .register => register req.isPost req.registerBody db
  | .dashboard => dashboard req.auth db
  | .student_create => student_create req.auth req.isPost req.studentBody db
  | .student_list => student_list req.auth req.search req.pageParam db
  | .student_detail => student_detail req.auth req.pk db
  | .student_update => student_update req.auth req.isPost req.pk req.studentBody db
  | .student_delete => student_delete req.auth req.isPost req.pk db
  | .course_list => course_list req.auth db
  | .course_create => course_create req.auth req.isPost req.courseBody db
  | .grade_create => grade_create req.auth req.isPost req.gradeBody db

/-! ### Concrete fixtures used by the closed witness theorems -/

/-- Concrete course fixture. -/
def courseCS : Course := { id := 1, name := "Intro to CS", code := "CS101", credits := 3 }

/-- Family of distinct concrete students indexed by a number. -/
def stuFix (i : Nat) : Student :=
  { id := i + 1
    student_id := "S" ++ toString i
    first_name := "F" ++ toString i
    last_name := "L" ++ toString i
    email := "e" ++ toString i ++ "@x.com"
    year := "1"
    courses := []
    created_at := i }

/-- A database with one student, one course and no grades. -/
def dbOne : DB := { students := [stuFix 0], courses := [courseCS], grades := [], clock := 1 }

/-- A database with two students. -/
def dbTwo : DB := { students := [stuFix 0, stuFix 1], courses := [], grades := [], clock := 2 }

/-- A database with seven students. -/
def dbSeven : DB := { students := (List.range 7).map stuFix, courses := [], grades := [], clock := 7 }

/-- A neutral unauthenticated request fixture. -/
def reqAnon : Request :=
  { auth := false
    isPost := false
    search := none
    pageParam := .absent
    pk := 1
    studentBody := { student_id := "STU001", first_name := "Ana", last_name := "Lee",
                     email := "ana@x.com", year := "1", courses := [] }
    gradeBody := { student := 1, course := 1, grade := "A", marks := 95 }
    courseBody := { name := "Intro to CS", code := "CS101", credits := 3 }
    registerBody := { username := "u", email := "u@x.com",
                      password1 := "pw123456", password2 := "pw123456" } }

/-! ### Helper lemmas -/

/-- Every member of a list is bounded by the running maximum used for
fresh-key generation. -/
theorem mem_le_foldr_max {α : Type} (f : α → Nat) (l : List α) (x : α) (hx : x ∈ l) :
    f x ≤ l.foldr (fun a m => max (f a) m) 0 := by
  induction l with
  | nil => cases hx
  | cons a t ih =>
    rcases List.mem_cons.mp hx with rfl | hm
    · exact le_max_left _ _
    · exact le_trans (ih hm) (le_max_right _ _)

/-- Finding by a key absent from the front half of an appended list finds in
the back half. -/
theorem find?_append_of_none {α : Type} (p : α → Bool) (l₁ l₂ : List α)
    (h : ∀ x ∈ l₁, p x = false) :
    (l₁ ++ l₂).find? p = l₂.find? p := by
  induction l₁ with
  | nil => rfl
  | cons a t ih =>
    have ha := h a (List.mem_cons_self a t)
    simp only [List.cons_append, List.find?, ha]
    exact ih (fun x hx => h x (List.mem_cons_of_mem a hx))

/-! ### Claims -/

/-- C7: every handler other than `register` is wrapped in `login_required`,
so an unauthenticated request yields the redirect to the login entry point
(a response constructor carrying no entity data) and leaves the database
untouched; the `register` handler never produces that redirect, so it is
reachable without a session. -/
theorem unauthenticated_requests_redirect_to_login :
    (∀ (h : Handler) (req : Request) (db : DB), h ≠ Handler.register →
      req.auth = false → dispatch h req db = (HResp.redirectLogin, db)) ∧
    (∀ (req : Request) (db : DB), (dispatch Handler.register req db).1 ≠ HResp.redirectLogin) := by
  constructor
  · intro h req db hne hauth
    cases h <;>
      simp_all [dispatch, dashboard, student_create, student_list, student_detail,
        student_update, student_delete, course_list, course_create, grade_create]
  · intro req db
    simp only [dispatch, register]
    rcases req.isPost with _ | _ <;> simp
    split <;> simp

/-- Closed witness for C7 at a concrete unauthenticated request. -/
theorem unauthenticated_requests_redirect_to_login_witness :
    dispatch Handler.student_list reqAnon dbOne = (HResp.redirectLogin, dbOne) ∧
    (dispatch Handler.register reqAnon dbOne).1 ≠ HResp.redirectLogin :=
  ⟨unauthenticated_requests_redirect_to_login.1 Handler.student_list reqAnon dbOne
      (by decide) rfl,
    unauthenticated_requests_redirect_to_login.2 reqAnon dbOne⟩

/-- C4: confirmed deletion of a student S removes S and exactly the grades
referencing S, keeps every other student and every unrelated grade, and
leaves the course table (and clock) unchanged. -/
theorem student_delete_cascades (db : DB) (pk : Nat) (S : Student)
    (hS : S ∈ db.students) (hid : S.id = pk) :
    (∀ s : Student, s ∈ ((student_delete true true pk db).2).students ↔
      (s ∈ db.students ∧ s.id ≠ pk)) ∧
    S ∉ ((student_delete true true pk db).2).students ∧
    (∀ g : Grade, g ∈ ((student_delete true true pk db).2).grades ↔
      (g ∈ db.grades ∧ g.student ≠ pk)) ∧
    ((student_delete true true pk db).2).courses = db.courses ∧
    ((student_delete true true pk db).2).clock = db.clock := by
  have hfind : (db.students.find? (fun s => s.id == pk)).isSome := by
    exact List.find?_isSome.mpr ⟨S, hS, by simp [hid]⟩
  obtain ⟨st, hst⟩ := Option.isSome_iff_exists.mp hfind
  have hdel : (student_delete true true pk db).2 = deleteStudentCascade db pk := by
    simp [student_delete, hst]
  rw [hdel]
  refine ⟨?_, ?_, ?_, rfl, rfl⟩
  · intro s
    simp [deleteStudentCascade, List.mem_filter]
  · intro hmem
    simp [deleteStudentCascade, List.mem_filter] at hmem
    exact hmem.2 hid
  · intro g
    simp [deleteStudentCascade, List.mem_filter]

/-- Closed witness for C4: deleting the single student of `dbOne` empties
the student table and keeps the course. -/
theorem student_delete_cascades_witness :
    stuFix 0 ∉ ((student_delete true true 1 dbOne).2).students ∧
    ((student_delete true true 1 dbOne).2).courses = dbOne.courses :=
  ⟨(student_delete_cascades dbOne 1 (stuFix 0) (by decide) (by decide)).2.1,
    (student_delete_cascades dbOne 1 (stuFix 0) (by decide) (by decide)).2.2.2.1⟩

/-- C5: a student create whose `student_id` or email already exists fails the
uniqueness validation, leaves the database (hence the existing record)
byte-for-byte unchanged, and on an authenticated POST re-renders the form
instead of redirecting. -/
theorem student_create_duplicate_rejected (db : DB) (inp : StudentInput)
    (auth isPost : Bool)
    (hdup : ∃ s ∈ db.students, s.student_id = inp.student_id ∨ s.email = inp.email) :
    studentFormValid db none inp = false ∧
    (student_create auth isPost inp db).2 = db ∧
    (auth = true → isPost = true →
      (student_create auth isPost inp db).1 = HResp.page PageData.formPage) := by
  obtain ⟨s, hs, hor⟩ := hdup
  have huniq : studentUniqueOk db none inp = false := by
    simp only [studentUniqueOk, Bool.not_eq_false', List.any_eq_true]
    exact ⟨s, hs, by rcases hor with h | h <;> simp [h]⟩
  have hvalid : studentFormValid db none inp = false := by
    simp [studentFormValid, huniq]
  refine ⟨hvalid, ?_, ?_⟩
  · cases auth <;> cases isPost <;> simp [student_create, hvalid]
  · intro ha hp
    subst ha; subst hp
    simp [student_create, hvalid]

/-- Closed witness for C5 at a concrete duplicate-email input. -/
theorem student_create_duplicate_rejected_witness :
    studentFormValid dbOne none
      { student_id := "S9", first_name := "Ana", last_name := "Lee",
        email := "e0@x.com", year := "1", courses := [] } = false ∧
    (student_create true true
      { student_id := "S9", first_name := "Ana", last_name := "Lee",
        email := "e0@x.com", year := "1", courses := [] } dbOne).2 = dbOne :=
  ⟨(student_create_duplicate_rejected dbOne _ true true
      ⟨stuFix 0, by decide, Or.inr (by decide)⟩).1,
    (student_create_duplicate_rejected dbOne _ true true
      ⟨stuFix 0, by decide, Or.inr (by decide)⟩).2.1⟩

/-- C6: code-bug evidence.  The claim says every grade accepted by the
validator has marks between 0 and 100, and the model's own comment calls
`marks` "Numerical marks out of 100" with a widget declaring min 0 / max
100; but the widget bounds are client-side HTML attributes only, so the
server-side validator accepts marks = 150 and the view persists it. -/
theorem grade_marks_out_of_range_accepted :
    gradeFormValid dbOne { student := 1, course := 1, grade := "A", marks := 150 } = true ∧
    ∃ g, g ∈ ((grade_create true true
        { student := 1, course := 1, grade := "A", marks := 150 } dbOne).2).grades ∧
      g.marks = 150 ∧ ¬(g.marks ≤ 100) := by
  refine ⟨by decide, ⟨{ id := 1, student := 1, course := 1, grade := "A", marks := 150 }, ?_, rfl, by decide⟩⟩
  decide

/-- Invariant of C1: at most one grade row per (student, course) pair. -/
def atMostOneGradePerPair (db : DB) : Prop :=
  ∀ s c : Nat,
    (db.grades.filter (fun g => g.student == s && g.course == c)).length ≤ 1

/-- Inserting a grade whose (student, course) pair is not yet present keeps
at most one grade per pair. -/
theorem insertGrade_preserves_pair_uniqueness (db : DB) (inp : GradeInput)
    (hno : db.grades.any (fun g => g.student == inp.student && g.course == inp.course) = false)
    (hinv : atMostOneGradePerPair db) :
    atMostOneGradePerPair (insertGrade db inp) := by
  intro s c
  have hnone : ∀ g ∈ db.grades, ¬(g.student = inp.student ∧ g.course = inp.course) := by
    intro g hg
    have := (List.any_eq_false.mp hno) g hg
    simpa using this
  by_cases hpair : inp.student = s ∧ inp.course = c
  · obtain ⟨h1, h2⟩ := hpair
    subst h1; subst h2
    have hempty :
        db.grades.filter (fun g => g.student == inp.student && g.course == inp.course) = [] := by
      apply List.filter_eq_nil_iff.mpr
      intro g hg
      simpa using hnone g hg
    simp only [insertGrade, List.filter_append, hempty, List.nil_append,
      List.length_append]
    exact le_trans (List.length_filter_le _ _) (by simp)
  · simp only [insertGrade, List.filter_append, List.filter_singleton,
      List.length_append]
    have hxf : (inp.student == s && inp.course == c) = false := by
      rw [Bool.eq_false_iff]
      intro hc
      simp only [Bool.and_eq_true, beq_iff_eq] at hc
      exact hpair ⟨hc.1, hc.2⟩
    rw [hxf]
    simpa using hinv s c

/-- C1: the view never lets a second grade for an existing (student, course)
pair through: the at-most-one invariant is preserved by every `grade_create`
request, and when a grade for the pair already exists the write fails (the
database is unchanged and an authenticated POST re-renders the form with
errors instead of redirecting). -/
theorem grade_create_pair_unique (auth isPost : Bool) (inp : GradeInput) (db : DB)
    (hinv : atMostOneGradePerPair db) :
    atMostOneGradePerPair ((grade_create auth isPost inp db).2) ∧
    ((∃ g ∈ db.grades, g.student = inp.student ∧ g.course = inp.course) →
      (grade_create auth isPost inp db).2 = db ∧
      (auth = true → isPost = true →
        (grade_create auth isPost inp db).1 = HResp.page PageData.formPage)) := by
  constructor
  · by_cases hv : gradeFormValid db inp = true
    · have hno : db.grades.any
          (fun g => g.student == inp.student && g.course == inp.course) = false := by
        have := hv
        simp only [gradeFormValid, Bool.and_eq_true, Bool.not_eq_true'] at this
        exact this.2
      cases auth <;> cases isPost <;>
        simp [grade_create, hv, hinv, insertGrade_preserves_pair_uniqueness db inp hno hinv]
    · cases auth <;> cases isPost <;> simp [grade_create, hv, hinv]
  · intro hdup
    obtain ⟨g, hg, hgs, hgc⟩ := hdup
    have hv : gradeFormValid db inp = false := by
      simp only [gradeFormValid]
      have : db.grades.any
          (fun g => g.student == inp.student && g.course == inp.course) = true := by
        simp only [List.any_eq_true]
        exact ⟨g, hg, by simp [hgs, hgc]⟩
      simp [this]
    constructor
    · cases auth <;> cases isPost <;> simp [grade_create, hv]
    · intro ha hp
      subst ha; subst hp
      simp [grade_create, hv]

/-- Closed witness for C1: with one (1, 1) grade on file, a second grade for
the same pair leaves the database unchanged. -/
theorem grade_create_pair_unique_witness :
    (grade_create true true { student := 1, course := 1, grade := "B", marks := 80 }
      { students := [stuFix 0], courses := [courseCS],
        grades := [{ id := 1, student := 1, course := 1, grade := "A", marks := 95 }],
        clock := 1 }).2 =
      { students := [stuFix 0], courses := [courseCS],
        grades := [{ id := 1, student := 1, course := 1, grade := "A", marks := 95 }],
        clock := 1 } :=
  ((grade_create_pair_unique true true _ _
      (fun s c => le_trans (List.length_filter_le _ _) (by simp))).2
    ⟨{ id := 1, student := 1, course := 1, grade := "A", marks := 95 },
      by decide, rfl, rfl⟩).1

/-- C2: for a non-empty search string the view computes the three
case-insensitive filters over the same unfiltered ordered list and returns
the first non-empty of the three; in particular a student that matches only
on last name or student id is dropped whenever the first-name filter is
non-empty. -/
theorem student_list_search_short_circuit (l : List Student) (q : String)
    (hq : q ≠ "") :
    (l.filter (fun s => icontains s.first_name q) ≠ [] →
      appliedSearch l (some q) = l.filter (fun s => icontains s.first_name q)) ∧
    (l.filter (fun s => icontains s.first_name q) = [] →
      l.filter (fun s => icontains s.last_name q) ≠ [] →
      appliedSearch l (some q) = l.filter (fun s => icontains s.last_name q)) ∧
    (l.filter (fun s => icontains s.first_name q) = [] →
      l.filter (fun s => icontains s.last_name q) = [] →
      appliedSearch l (some q) = l.filter (fun s => icontains s.student_id q)) ∧
    (∀ s ∈ l, l.filter (fun s => icontains s.first_name q) ≠ [] →
      icontains s.first_name q = false → s ∉ appliedSearch l (some q)) := by
  have hne : q.isEmpty = false := by
    rw [Bool.eq_false_iff]
    intro h
    exact hq ((String.isEmpty_iff q).mp h)
  have happ : appliedSearch l (some q) = searchFilter l q := by
    simp [appliedSearch, hne]
  refine ⟨?_, ?_, ?_, ?_⟩
  · intro h1
    rw [happ]
    simp [searchFilter, pyOrList, List.isEmpty_iff, h1]
  · intro h1 h2
    rw [happ]
    simp [searchFilter, pyOrList, List.isEmpty_iff, h1, h2]
  · intro h1 h2
    rw [happ]
    simp [searchFilter, pyOrList, List.isEmpty_iff, h1, h2]
  · intro s _ h1 hnomatch hmem
    have hres : appliedSearch l (some q) =
        l.filter (fun s => icontains s.first_name q) := by
      simp [appliedSearch, hne, searchFilter, pyOrList, List.isEmpty_iff, h1]
    rw [hres] at hmem
    have := (List.mem_filter.mp hmem).2
    rw [hnomatch] at this
    cases this

/-- Closed witness for C2: searching "lee" where no first name matches but
both last names do returns the last-name matches; searching "f0" (only a
first-name match) returns just that student. -/
theorem student_list_search_short_circuit_witness :
    appliedSearch [stuFix 0, stuFix 1] (some "l1") =
      List.filter (fun s => icontains s.last_name "l1") [stuFix 0, stuFix 1] ∧
    appliedSearch [stuFix 0, stuFix 1] (some "f0") =
      List.filter (fun s => icontains s.first_name "f0") [stuFix 0, stuFix 1] :=
  ⟨(student_list_search_short_circuit [stuFix 0, stuFix 1] "l1" (by decide)).2.1
      (by decide) (by decide),
    (student_list_search_short_circuit [stuFix 0, stuFix 1] "f0" (by decide)).1
      (by decide)⟩

/-- C3: pagination of `student_list` is at 10 records per page: the resolved
page number is always between 1 and the page count, a page holds at most 10
records and every page before the last holds exactly 10; with 25 students
there are exactly 3 pages and the out-of-range parameter 99 resolves to the
valid last page (page 3, holding the remaining 5 records).  A non-numeric
or missing parameter resolves to the first page. -/
theorem student_list_pagination :
    (∀ (l : List Student) (param : PageParam),
      1 ≤ (paginate l 10 param).number ∧
      (paginate l 10 param).number ≤ (paginate l 10 param).pages ∧
      (paginate l 10 param).objects.length ≤ 10 ∧
      ((paginate l 10 param).number < (paginate l 10 param).pages →
        (paginate l 10 param).objects.length = 10) ∧
      (∀ q : PageParam, (q = PageParam.absent ∨ q = PageParam.notAnInteger) →
        (paginate l 10 q).number = 1)) ∧
    (∀ l : List Student, l.length = 25 →
      (paginate l 10 (PageParam.num 99)).pages = 3 ∧
      (paginate l 10 (PageParam.num 99)).number = 3 ∧
      (paginate l 10 (PageParam.num 99)).objects.length = 5) := by
  constructor
  · intro l param
    refine ⟨?_, ?_, ?_, ?_, ?_⟩
    · rcases param with _ | _ | n <;>
        simp only [paginate, resolvedPageNumber, numPages] <;>
        first
          | omega
          | (split <;> [omega; (split <;> omega)])
    · rcases param with _ | _ | n <;>
        simp only [paginate, resolvedPageNumber, numPages] <;>
        first
          | omega
          | (split <;> [omega; (split <;> omega)])
    · simp only [paginate, List.length_take, List.length_drop]
      omega
    · rcases param with _ | _ | n <;>
        simp only [paginate, resolvedPageNumber, numPages, List.length_take,
          List.length_drop] <;>
        first
          | omega
          | (split <;> [omega; (split <;> omega)])
    · rintro q (rfl | rfl) <;> rfl
  · intro l hlen
    refine ⟨?_, ?_, ?_⟩ <;>
      simp only [paginate, resolvedPageNumber, numPages, List.length_take,
        List.length_drop, hlen] <;> norm_num

/-- Closed witness for C3: 25 concrete students, page parameter 99. -/
theorem student_list_pagination_witness :
    (paginate ((List.range 25).map stuFix) 10 (PageParam.num 99)).pages = 3 ∧
    (paginate ((List.range 25).map stuFix) 10 (PageParam.num 99)).number = 3 ∧
    (paginate ((List.range 25).map stuFix) 10 (PageParam.num 99)).objects.length = 5 :=
  student_list_pagination.2 ((List.range 25).map stuFix) (by simp)

/-- Totality of the recency ordering used by the dashboard. -/
instance : IsTotal Student (fun a b => b.created_at ≤ a.created_at) :=
  ⟨fun a b => le_total b.created_at a.created_at⟩

/-- Transitivity of the recency ordering used by the dashboard. -/
instance : IsTrans Student (fun a b => b.created_at ≤ a.created_at) :=
  ⟨fun _ _ _ h1 h2 => le_trans h2 h1⟩

/-- C8: the dashboard renders exactly the three table counts together with
the five most-recently-created students: the recent list has `min 5 n`
elements drawn from the student table, is ordered by creation time
descending, contains every student when at most five exist, and every
student left out was created no later than every student shown. -/
theorem dashboard_counts_and_recent (db : DB) :
    (dashboard true db).1 = HResp.page (PageData.dashboardPage db.students.length
      db.courses.length db.grades.length ((orderByCreatedDesc db.students).take 5)) ∧
    ((orderByCreatedDesc db.students).take 5).length = min 5 db.students.length ∧
    (∀ s ∈ (orderByCreatedDesc db.students).take 5, s ∈ db.students) ∧
    List.Pairwise (fun a b => b.created_at ≤ a.created_at)
      ((orderByCreatedDesc db.students).take 5) ∧
    (db.students.length ≤ 5 →
      ∀ s ∈ db.students, s ∈ (orderByCreatedDesc db.students).take 5) ∧
    (∀ s ∈ db.students, s ∉ (orderByCreatedDesc db.students).take 5 →
      ∀ r ∈ (orderByCreatedDesc db.students).take 5, s.created_at ≤ r.created_at) := by
  have hperm : (orderByCreatedDesc db.students).Perm db.students :=
    List.perm_insertionSort _ _
  have hsorted : List.Pairwise (fun a b => b.created_at ≤ a.created_at)
      (orderByCreatedDesc db.students) :=
    List.sorted_insertionSort _ _
  refine ⟨rfl, ?_, ?_, ?_, ?_, ?_⟩
  · rw [List.length_take, hperm.length_eq]
  · intro s hs
    exact hperm.subset (List.mem_of_mem_take hs)
  · exact hsorted.sublist (List.take_sublist 5 _)
  · intro hlen s hs
    rw [List.take_of_length_le (by rw [hperm.length_eq]; exact hlen)]
    exact hperm.symm.subset hs
  · intro s hs hnot r hr
    have hsplit := List.take_append_drop 5 (orderByCreatedDesc db.students)
    have hpw : List.Pairwise (fun a b => b.created_at ≤ a.created_at)
        ((orderByCreatedDesc db.students).take 5 ++
          (orderByCreatedDesc db.students).drop 5) := by
      rw [hsplit]; exact hsorted
    obtain ⟨-, -, hcross⟩ := List.pairwise_append.mp hpw
    have hssorted : s ∈ orderByCreatedDesc db.students := hperm.symm.subset hs
    rw [← hsplit] at hssorted
    rcases List.mem_append.mp hssorted with htk | hdp
    · exact absurd htk hnot
    · exact hcross r hr s hdp

/-- Closed witness for C8 at a concrete database of seven students: the
oldest student is left out of the recent five and was created no later than
a shown one. -/
theorem dashboard_counts_and_recent_witness :
    stuFix 0 ∈ dbSeven.students ∧
    (stuFix 0).created_at ≤ (stuFix 2).created_at :=
  ⟨by decide,
    (dashboard_counts_and_recent dbSeven).2.2.2.2.2
      (stuFix 0) (by decide) (by decide) (stuFix 2) (by decide)⟩

/-- C9: creating a student from a valid input with fresh `student_id` and
email and then reading its detail page returns exactly the submitted field
values. -/
theorem student_create_then_detail_roundtrip (db : DB) (inp : StudentInput)
    (hvalid : studentFormValid db none inp = true) :
    ∃ st gs,
      (student_detail true (freshStudentId db)
          ((student_create true true inp db).2)).1 =
        HResp.page (PageData.studentDetailPage st gs) ∧
      st.student_id = inp.student_id ∧ st.first_name = inp.first_name ∧
      st.last_name = inp.last_name ∧ st.email = inp.email ∧
      st.year = inp.year ∧ st.courses = inp.courses := by
  have hdb2 : (student_create true true inp db).2 = insertStudent db inp := by
    simp [student_create, hvalid]
  have hfresh : ∀ s ∈ db.students, ((fun s => s.id == freshStudentId db) s) = false := by
    intro s hs
    have hle : s.id ≤ db.students.foldr (fun s m => max s.id m) 0 :=
      mem_le_foldr_max (fun s => s.id) db.students s hs
    simp only [freshStudentId, beq_eq_false_iff_ne, ne_eq]
    omega
  have hfind : ((insertStudent db inp).students).find?
      (fun s => s.id == freshStudentId db) =
      some { id := freshStudentId db, student_id := inp.student_id,
             first_name := inp.first_name, last_name := inp.last_name,
             email := inp.email, year := inp.year, courses := inp.courses,
             created_at := db.clock } := by
    simp only [insertStudent]
    rw [find?_append_of_none _ _ _ hfresh]
    simp [List.find?]
  rw [hdb2]
  refine ⟨{ id := freshStudentId db, student_id := inp.student_id,
            first_name := inp.first_name, last_name := inp.last_name,
            email := inp.email, year := inp.year, courses := inp.courses,
            created_at := db.clock },
    (insertStudent db inp).grades.filter (fun g => g.student == freshStudentId db),
    ?_, rfl, rfl, rfl, rfl, rfl, rfl⟩
  simp [student_detail, hfind]

/-- Closed witness for C9 at the one-student database and a fresh input. -/
theorem student_create_then_detail_roundtrip_witness :
    ∃ st gs,
      (student_detail true
          (freshStudentId dbOne)
          ((student_create true true
            { student_id := "STU001", first_name := "Ana", last_name := "Lee",
              email := "ana@x.com", year := "1", courses := [] } dbOne).2)).1 =
        HResp.page (PageData.studentDetailPage st gs) ∧
      st.student_id = "STU001" ∧ st.first_name = "Ana" ∧
      st.last_name = "Lee" ∧ st.email = "ana@x.com" ∧
      st.year = "1" ∧ st.courses = [] :=
  student_create_then_detail_roundtrip dbOne
    { student_id := "STU001", first_name := "Ana", last_name := "Lee",
      email := "ana@x.com", year := "1", courses := [] } (by decide)

/-- C10: an update submitted with the edited student's own current
`student_id` and email (changing only other fields) passes validation —
the uniqueness check excludes the record being edited — and persists the
new field values; uniqueness against every other student is still enforced
and a clashing input leaves the database unchanged. -/
theorem student_update_excludes_self (db : DB) (pk : Nat) (st : Student)
    (inp : StudentInput) (hst : st ∈ db.students) (hid : st.id = pk)
    (hu : ∀ a ∈ db.students, ∀ b ∈ db.students,
      a.student_id = b.student_id ∨ a.email = b.email → a.id = b.id)
    (hsid : inp.student_id = st.student_id) (hem : inp.email = st.email)
    (hfields : studentFieldsOk db inp = true) :
    studentFormValid db (some pk) inp = true ∧
    (student_update true true pk inp db).1 = HResp.redirect "student_detail" ∧
    (∃ s ∈ ((student_update true true pk inp db).2).students,
      s.id = pk ∧ s.student_id = inp.student_id ∧ s.first_name = inp.first_name ∧
      s.last_name = inp.last_name ∧ s.email = inp.email ∧ s.year = inp.year ∧
      s.courses = inp.courses) ∧
    (∀ inp2 : StudentInput,
      (∃ o ∈ db.students, o.id ≠ pk ∧
        (o.student_id = inp2.student_id ∨ o.email = inp2.email)) →
      studentFormValid db (some pk) inp2 = false ∧
      (student_update true true pk inp2 db).2 = db) := by
  have hst2ex : ∃ st2, db.students.find? (fun s => s.id == pk) = some st2 :=
    Option.isSome_iff_exists.mp
      (List.find?_isSome.mpr ⟨st, hst, by simp [hid]⟩)
  obtain ⟨st2, hst2⟩ := hst2ex
  have huniq : studentUniqueOk db (some pk) inp = true := by
    simp only [studentUniqueOk, Bool.not_eq_true', List.any_eq_false]
    intro s hs
    simp only [Bool.and_eq_true, Bool.not_eq_true', beq_eq_false_iff_ne, ne_eq,
      Bool.or_eq_true, beq_iff_eq, not_and, not_or]
    intro hsne
    have hkey : ¬(s.student_id = st.student_id ∨ s.email = st.email) := by
      intro hshare
      exact hsne (hid ▸ hu s hs st hst hshare)
    rw [hsid, hem]
    exact ⟨fun h => hkey (Or.inl h), fun h => hkey (Or.inr h)⟩
  have hvalid : studentFormValid db (some pk) inp = true := by
    simp [studentFormValid, hfields, huniq]
  refine ⟨hvalid, ?_, ?_, ?_⟩
  · simp [student_update, hst2, hvalid]
  · have hpersist : (student_update true true pk inp db).2 = updateStudent db pk inp := by
      simp [student_update, hst2, hvalid]
    rw [hpersist]
    refine ⟨{ st with
        student_id := inp.student_id
        first_name := inp.first_name
        last_name := inp.last_name
        email := inp.email
        year := inp.year
        courses := inp.courses },
      ?_, by simp [hid], rfl, rfl, rfl, rfl, rfl, rfl⟩
    simp only [updateStudent, List.mem_map]
    exact ⟨st, hst, by simp [hid]⟩
  · intro inp2 hclash
    obtain ⟨o, ho, hone, hor⟩ := hclash
    have huniq2 : studentUniqueOk db (some pk) inp2 = false := by
      simp only [studentUniqueOk, Bool.not_eq_false', List.any_eq_true]
      refine ⟨o, ho, ?_⟩
      simp only [Bool.and_eq_true, Bool.not_eq_true', beq_eq_false_iff_ne, ne_eq,
        Bool.or_eq_true, beq_iff_eq]
      rcases hor with h | h
      · exact ⟨hone, Or.inl h⟩
      · exact ⟨hone, Or.inr h⟩
    have hvalid2 : studentFormValid db (some pk) inp2 = false := by
      simp [studentFormValid, huniq2]
    exact ⟨hvalid2, by simp [student_update, hst2, hvalid2]⟩

/-- Closed witness for C10 at a two-student database: re-submitting the
first student's own identifiers passes, while borrowing the second
student's `student_id` fails and changes nothing. -/
theorem student_update_excludes_self_witness :
    studentFormValid dbTwo (some 1)
      { student_id := "S0"
        first_name := "New"
        last_name := "Name"
        email := "e0@x.com"
        year := "2"
        courses := [] } = true ∧
    studentFormValid dbTwo (some 1)
      { student_id := "S1"
        first_name := "New"
        last_name := "Name"
        email := "x@x.com"
        year := "2"
        courses := [] } = false :=
  ⟨(student_update_excludes_self dbTwo 1 (stuFix 0)
      { student_id := "S0"
        first_name := "New"
        last_name := "Name"
        email := "e0@x.com"
        year := "2"
        courses := [] }
      (by decide) (by decide) (by decide) (by decide) (by decide) (by decide)).1,
    ((student_update_excludes_self dbTwo 1 (stuFix 0)
      { student_id := "S0"
        first_name := "New"
        last_name := "Name"
        email := "e0@x.com"
        year := "2"
        courses := [] }
      (by decide) (by decide) (by decide) (by decide) (by decide) (by decide)).2.2.2
      { student_id := "S1"
        first_name := "New"
        last_name := "Name"
        email := "x@x.com"
        year := "2"
        courses := [] }
      ⟨stuFix 1, by decide, by decide, Or.inl (by decide)⟩).1⟩

end CampusCore
